import Mathlib

/-!
Verification of the reconciler in `plugins/modules/azure_rm_storageaccount_aria.py`.

The module's observable behaviour is embedded shallowly:
stateful method calls become explicit parameters and return values, the
cloud client becomes explicit inputs (the lookup outcome, the connection
listing, the outcome of each `put`), and a Python exception escaping the
run becomes an `Except` error value.
-/

set_option autoImplicit false

/-- A private endpoint connection as returned by
`storage_client.private_endpoint_connections.list`: its `name` and the string
`private_link_service_connection_state.status` the code compares to `"Pending"`. -/
structure PrivateEndpointConnection where
  name : String
  status : String
deriving DecidableEq, Repr

/-- The account object returned by `storage_accounts.get_properties`
(the fields `account_obj_to_dict` reads). -/
structure AccountObj where
  id : String
  name : String
  location : String
deriving DecidableEq, Repr

/-- The dictionary built by `account_obj_to_dict` and stored in
`self.account_dict` / `self.results[state]`. -/
structure AccountDict where
  id : String
  name : String
  location : String
  resource_group : String
  private_endpoint_connection : List String
deriving DecidableEq, Repr

/-- A `CloudError` raised by the SDK client. `isNotFound` records whether the
underlying response was a 404 resource-not-found; the Python class carries the
status code but `get_account` never inspects it. -/
structure CloudError where
  isNotFound : Bool
deriving DecidableEq, Repr

/-- An error that escapes the run: `typeError` is the Python `TypeError` raised
by subscripting `None` (`self.account_dict[...]` when the account is absent);
`cloud` is a `CloudError` propagating out of a client call. -/
inductive RunError where
  | typeError : RunError
  | cloud : CloudError → RunError
deriving DecidableEq, Repr

/-- The `self.results` dictionary: `changed` plus the `state` snapshot.
`state = none` stands for the empty dict assigned when the account is absent. -/
structure ModuleResults where
  changed : Bool
  state : Option AccountDict
deriving DecidableEq, Repr

/-- Embeds `account_obj_to_dict` (source lines 517-526): copies `id`, `name`,
`location`, records the resource group, and initialises
`private_endpoint_connection` to a fresh empty list. -/
def account_obj_to_dict (resource_group : String) (a : AccountObj) : AccountDict :=
  { id := a.id
    name := a.name
    location := a.location
    resource_group := resource_group
    private_endpoint_connection := [] }

/-- Embeds `get_account` (source lines 502-515). The outcome of
`storage_accounts.get_properties` is passed in as an `Except`; the
`except CloudError: pass` clause catches every `CloudError`, whatever its
status code, leaving `account_obj = None`. -/
def get_account (resource_group : String) (lookup : Except CloudError AccountObj) :
    Option AccountDict :=
  match lookup with
  | .error _ => none
  | .ok obj => some (account_obj_to_dict resource_group obj)

/-- Embeds the location defaulting on source lines 476-478:
`if not self.location: self.location = resource_group.location`. Python
truthiness makes both `None` and the empty string fall back to the resource
group's location. -/
def effectiveLocation (location : Option String) (rgLocation : String) : String :=
  match location with
  | none => rgLocation
  | some s => if s = "" then rgLocation else s

/-- The test on source line 496:
`pec.private_link_service_connection_state.status == 'Pending'`. -/
def isPending (c : PrivateEndpointConnection) : Bool :=
  c.status == "Pending"

/-- The mutation on source line 499: the connection object with its status set
to `"Approved"`, as subsequently sent to `put`. -/
def approveConn (c : PrivateEndpointConnection) : PrivateEndpointConnection :=
  { c with status := "Approved" }

/-- Embeds the loop of `private_endpoint_connections` (source lines 495-500).
Arguments: the outcome of each `put` (keyed by connection name), the remaining
listing, the accumulated `changed` flag, the current `account_dict`
(`none` when the account was absent), and the writes issued so far. Returns
the writes actually sent to `put` (in order) together with either the final
`(changed, account_dict)` or the error that aborted the run: subscripting a
`None` account dict on line 498, or a failing `put` on line 500. -/
def pecLoop (putR : String → Except CloudError Unit) :
    List PrivateEndpointConnection → Bool → Option AccountDict →
    List PrivateEndpointConnection →
    List PrivateEndpointConnection × Except RunError (Bool × Option AccountDict)
  | [], changed, d, writes => (writes, .ok (changed, d))
  | pec :: rest, changed, d, writes =>
    if isPending pec then
      match d with
      | none => (writes, .error .typeError)
      | some ad =>
        match putR pec.name with
        | .error e => (writes, .error (.cloud e))
        | .ok _ =>
          pecLoop putR rest true
            (some { ad with private_endpoint_connection :=
                      ad.private_endpoint_connection ++ [pec.name] })
            (writes ++ [approveConn pec])
    else
      pecLoop putR rest changed d writes

/-- Embeds `exec_module` (source lines 469-490) after argument copying:
look the account up, store its dict (or the empty dict) in `results[state]`,
and when `approve_private_endpoint_connections` is set run the approval loop.
`changed` starts `False` (source line 455). -/
def exec_module (resource_group : String) (approve : Bool)
    (putR : String → Except CloudError Unit)
    (lookup : Except CloudError AccountObj)
    (conns : List PrivateEndpointConnection) :
    List PrivateEndpointConnection × Except RunError ModuleResults :=
  let account_dict := get_account resource_group lookup
  if approve then
    match pecLoop putR conns false account_dict [] with
    | (ws, .error e) => (ws, .error e)
    | (ws, .ok (changed, d)) => (ws, .ok { changed := changed, state := d })
  else
    ([], .ok { changed := false, state := account_dict })

/-- Modelled from the spec: the monitoring reconciliation of the module variant
that is not under `src/` (only the connection-approval variant is). A retention
block: an enabled flag and a day count that the API may report as unset. -/
structure RetentionPolicy where
  enabled : Bool
  days : Option Nat
deriving DecidableEq, Repr

/-- Modelled from the spec: a logging block of a sub-service configuration:
read/write/delete flags plus a retention block. -/
structure LoggingConfig where
  read : Bool
  write : Bool
  delete : Bool
  retention : RetentionPolicy
deriving DecidableEq, Repr

/-- Modelled from the spec: a metrics block (hour or minute): enabled flag,
an include-detailed-API-metrics flag the API may report as unset, and a
retention block. -/
structure MetricsConfig where
  enabled : Bool
  includeAPIs : Option Bool
  retention : RetentionPolicy
deriving DecidableEq, Repr

/-- Modelled from the spec: the full logging/metrics configuration of one
sub-service: a logging block and hour/minute metrics blocks. -/
structure ServiceConfig where
  logging : LoggingConfig
  hourMetrics : MetricsConfig
  minuteMetrics : MetricsConfig
deriving DecidableEq, Repr

/-- Modelled from the spec: the four sub-services of a storage account. -/
inductive SubService where
  | blob
  | queue
  | file
  | table
deriving DecidableEq, Repr

/-- Modelled from the spec: the desired monitoring policy derived from the
`enable_monitoring` integer parameter. -/
structure MonitoringPolicy where
  enabled : Bool
  retentionDays : Nat
deriving DecidableEq, Repr

/-- Modelled from the spec: equality rule for a logging block — all boolean
flags equal, retention-enabled flags equal, and retention days equal OR the
observed days unset (the deliberate one-directional wildcard). `d` is the
desired block, `o` the observed one. -/
def loggingMatches (d o : LoggingConfig) : Bool :=
  d.read == o.read && d.write == o.write && d.delete == o.delete &&
  d.retention.enabled == o.retention.enabled &&
  (d.retention.days == o.retention.days || o.retention.days == none)

/-- Modelled from the spec: equality rule for a metrics block — enabled flags
equal, include-detailed-API-metrics flags equal or observed unset, and the
retention sub-rule as for logging. -/
def metricsMatches (d o : MetricsConfig) : Bool :=
  d.enabled == o.enabled &&
  (d.includeAPIs == o.includeAPIs || o.includeAPIs == none) &&
  d.retention.enabled == o.retention.enabled &&
  (d.retention.days == o.retention.days || o.retention.days == none)

/-- Modelled from the spec: the comparison for one sub-service. Blob, queue
and table compare the logging block and both metrics blocks; file compares
only the two metrics blocks. -/
def configMatches (svc : SubService) (d o : ServiceConfig) : Bool :=
  match svc with
  | .file =>
    metricsMatches d.hourMetrics o.hourMetrics &&
    metricsMatches d.minuteMetrics o.minuteMetrics
  | _ =>
    loggingMatches d.logging o.logging &&
    metricsMatches d.hourMetrics o.hourMetrics &&
    metricsMatches d.minuteMetrics o.minuteMetrics

/-- Modelled from the spec: the policy derived once from the optional
`enable_monitoring` integer: absent means no action, 0 a disabled policy with
days 0, N positive an enabled policy with days N. -/
def desiredPolicy : Option Nat → Option MonitoringPolicy
  | none => none
  | some 0 => some { enabled := false, retentionDays := 0 }
  | some n => some { enabled := true, retentionDays := n }

/-- Modelled from the spec: the desired configuration object written for one
sub-service: every enable flag follows the policy's `enabled` and every
retention block carries the policy's day count. -/
def desiredConfig (p : MonitoringPolicy) : ServiceConfig :=
  { logging :=
      { read := p.enabled
        write := p.enabled
        delete := p.enabled
        retention := { enabled := p.enabled, days := some p.retentionDays } }
    hourMetrics :=
      { enabled := p.enabled
        includeAPIs := some p.enabled
        retention := { enabled := p.enabled, days := some p.retentionDays } }
    minuteMetrics :=
      { enabled := p.enabled
        includeAPIs := some p.enabled
        retention := { enabled := p.enabled, days := some p.retentionDays } } }

/-- Modelled from the spec: the per-service decision — compare the observed
configuration to the desired one and issue a write (returned as `some` payload,
with `changed = true`) exactly when they are not equal under the rule. -/
def reconcileService (p : MonitoringPolicy) (svc : SubService)
    (observed : ServiceConfig) : Bool × Option ServiceConfig :=
  if configMatches svc (desiredConfig p) observed then (false, none)
  else (true, some (desiredConfig p))

/-- Modelled from the spec: one sequential step of the monitoring
reconciliation: read the service's current configuration from the remote map,
and when a write is issued apply it to the remote map and set `changed`. -/
def stepService (p : MonitoringPolicy) (acc : Bool × (SubService → ServiceConfig))
    (svc : SubService) : Bool × (SubService → ServiceConfig) :=
  match reconcileService p svc (acc.2 svc) with
  | (false, _) => acc
  | (true, _) => (true, Function.update acc.2 svc (desiredConfig p))

/-- Modelled from the spec: the four sub-services reconciled sequentially, in
the source's fixed order blob, queue, file, table. -/
def reconcileMonitoring (p : MonitoringPolicy) (cfgs : SubService → ServiceConfig) :
    Bool × (SubService → ServiceConfig) :=
  stepService p
    (stepService p
      (stepService p
        (stepService p (false, cfgs) SubService.blob)
        SubService.queue)
      SubService.file)
    SubService.table

/-- Modelled from the spec: the whole monitoring phase — absent
`enable_monitoring` performs no action at all. -/
def monitoringPart (em : Option Nat) (cfgs : SubService → ServiceConfig) :
    Bool × (SubService → ServiceConfig) :=
  match desiredPolicy em with
  | none => (false, cfgs)
  | some p => reconcileMonitoring p cfgs

/-- Modelled from the spec: one monitoring step with the client's write channel
made explicit — the spec gives `setSubServiceConfig → Ack | Error` and states
that a failing write is not recovered. When a write is issued, the client's
outcome for that service decides: an error propagates immediately, an ack
yields exactly the `stepService` state. -/
def stepServiceE (setR : SubService → Except CloudError Unit)
    (p : MonitoringPolicy) (acc : Bool × (SubService → ServiceConfig))
    (svc : SubService) : Except CloudError (Bool × (SubService → ServiceConfig)) :=
  match reconcileService p svc (acc.2 svc) with
  | (false, _) => .ok acc
  | (true, _) =>
    match setR svc with
    | .error e => .error e
    | .ok _ => .ok (true, Function.update acc.2 svc (desiredConfig p))

/-- A connection as the remote keeps it after a successful run: a `put` stored
the object with status `"Approved"` for every pending connection, the rest are
untouched. With no external change, the next listing returns exactly these. -/
def approveIfPending (c : PrivateEndpointConnection) : PrivateEndpointConnection :=
  if isPending c then approveConn c else c

/-- The full reconcile operation of the spec: the monitoring phase (modelled
from the spec) followed by the source's account lookup and approval loop.
Returns the results dictionary together with the remote state after the run:
the service configurations as written and the connection listing a subsequent
run would observe (assuming the remote applied each successful write and no
external change occurred). -/
def reconcile (em : Option Nat) (approve : Bool) (resource_group : String)
    (putR : String → Except CloudError Unit)
    (lookup : Except CloudError AccountObj)
    (cfgs : SubService → ServiceConfig)
    (conns : List PrivateEndpointConnection) :
    Except RunError
      (ModuleResults × (SubService → ServiceConfig) × List PrivateEndpointConnection) :=
  let m := monitoringPart em cfgs
  let account_dict := get_account resource_group lookup
  if approve then
    match pecLoop putR conns m.1 account_dict [] with
    | (_, .error e) => .error e
    | (_, .ok (changed, d)) =>
      .ok ({ changed := changed, state := d }, m.2, conns.map approveIfPending)
  else
    .ok ({ changed := m.1, state := account_dict }, m.2, conns)

/-- Modelled from the spec: an observed configuration whose retention day
counts are all unset while every other field is kept — the wildcard shape of
the spec's leniency property. -/
def clearDays (c : ServiceConfig) : ServiceConfig :=
  { logging := { c.logging with retention := { c.logging.retention with days := none } }
    hourMetrics :=
      { c.hourMetrics with retention := { c.hourMetrics.retention with days := none } }
    minuteMetrics :=
      { c.minuteMetrics with retention := { c.minuteMetrics.retention with days := none } } }

/-- Witness input: a put that always succeeds. -/
def wPut : String → Except CloudError Unit := fun _ => .ok ()

/-- Witness input: a put that fails on connection `"c1"` with a non-not-found
error and succeeds elsewhere. -/
def wPutFail : String → Except CloudError Unit := fun n =>
  if n = "c1" then .error { isNotFound := false } else .ok ()

/-- Witness input: a config-write channel that always fails with a
non-not-found error. -/
def wSetFail : SubService → Except CloudError Unit := fun _ =>
  .error { isNotFound := false }

/-- Witness input: an enabled policy with fifteen retention days. -/
def wPol : MonitoringPolicy := { enabled := true, retentionDays := 15 }

/-- Witness input: a concrete account object. -/
def wObj : AccountObj :=
  { id := "aid", name := "acct1", location := "eastus" }

/-- Witness input: a sub-service configuration with everything off and both
optional fields unset. -/
def wCfg : ServiceConfig :=
  { logging :=
      { read := false, write := false, delete := false
        retention := { enabled := false, days := none } }
    hourMetrics :=
      { enabled := false, includeAPIs := none
        retention := { enabled := false, days := none } }
    minuteMetrics :=
      { enabled := false, includeAPIs := none
        retention := { enabled := false, days := none } } }

/-- Witness input: every sub-service observed in the `wCfg` state. -/
def wCfgs : SubService → ServiceConfig := fun _ => wCfg

/-- Witness input: a listing with one connection in each status the spec
names. -/
def wMix : List PrivateEndpointConnection :=
  [{ name := "c1", status := "Pending" },
   { name := "c2", status := "Approved" },
   { name := "c3", status := "Rejected" },
   { name := "c4", status := "Disconnected" }]

/-- Witness input: a single pending connection. -/
def wConns : List PrivateEndpointConnection :=
  [{ name := "c1", status := "Pending" }]

/-- Witness input: a concrete account dictionary with one name already
recorded, to exhibit appending. -/
def wAd : AccountDict :=
  { id := "aid", name := "acct1", location := "eastus", resource_group := "rg1"
    private_endpoint_connection := ["old"] }

/-- Witness input: the output of the first `reconcile` run used in the
idempotence witness: one pending connection approved and recorded. -/
def wOut :
    ModuleResults × (SubService → ServiceConfig) × List PrivateEndpointConnection :=
  ({ changed := true
     state := some
       { id := "aid", name := "acct1", location := "eastus", resource_group := "rg1"
         private_endpoint_connection := ["c1"] } },
   wCfgs,
   [{ name := "c1", status := "Approved" }])

/-- Running the loop over a prefix whose pending connections all `put`
successfully accumulates the approvals and continues with the rest. -/
theorem pecLoop_ok_front (putR : String → Except CloudError Unit)
    (pre rest : List PrivateEndpointConnection)
    (hok : ∀ c ∈ pre, isPending c = true → putR c.name = .ok ()) :
    ∀ (b : Bool) (ad : AccountDict) (ws : List PrivateEndpointConnection),
      pecLoop putR (pre ++ rest) b (some ad) ws =
        pecLoop putR rest (b || pre.any isPending)
          (some { ad with private_endpoint_connection :=
                    ad.private_endpoint_connection ++
                      (pre.filter isPending).map (fun c => c.name) })
          (ws ++ (pre.filter isPending).map approveConn) := by
  induction pre with
  | nil =>
    intro b ad ws
    simp [pecLoop]
  | cons x pre ih =>
    intro b ad ws
    have hok' : ∀ c ∈ pre, isPending c = true → putR c.name = .ok () := by
      intro c hc hp
      exact hok c (List.mem_cons_of_mem x hc) hp
    cases hx : isPending x with
    | true =>
      have hput : putR x.name = .ok () := hok x (List.mem_cons_self x pre) hx
      simp only [List.cons_append, pecLoop, hx, hput, if_true, List.append_eq]
      rw [ih hok']
      simp [hx, List.filter_cons, List.append_assoc]
    | false =>
      simp only [List.cons_append, pecLoop, hx, Bool.false_eq_true, if_false,
        List.append_eq]
      rw [ih hok']
      simp [hx, List.filter_cons]

/-- Running the loop with every pending connection putting successfully,
from a fresh accumulator: the writes are exactly the pendings with status set
to Approved, `changed` records whether any was pending, and exactly the
pending names are appended to the account dict's list, in listing order. -/
theorem pecLoop_all_ok (putR : String → Except CloudError Unit)
    (conns : List PrivateEndpointConnection) (b : Bool) (ad : AccountDict)
    (hok : ∀ c ∈ conns, isPending c = true → putR c.name = .ok ()) :
    pecLoop putR conns b (some ad) [] =
      ((conns.filter isPending).map approveConn,
       .ok (b || conns.any isPending,
        some { ad with private_endpoint_connection :=
                 ad.private_endpoint_connection ++
                   (conns.filter isPending).map (fun c => c.name) })) := by
  have h := pecLoop_ok_front putR conns [] hok b ad []
  simpa [pecLoop] using h

/-- Running the loop with an absent account dict errors with the Python
`TypeError` at the first pending connection. -/
theorem pecLoop_none_pending (putR : String → Except CloudError Unit)
    (conns : List PrivateEndpointConnection) (hp : conns.any isPending = true) :
    ∀ (b : Bool) (ws : List PrivateEndpointConnection),
      pecLoop putR conns b none ws = (ws, .error .typeError) := by
  induction conns with
  | nil => simp at hp
  | cons x rest ih =>
    intro b ws
    cases hx : isPending x with
    | true => simp [pecLoop, hx]
    | false =>
      have hp' : rest.any isPending = true := by
        simpa [List.any_cons, hx] using hp
      simp only [pecLoop, hx, Bool.false_eq_true, if_false]
      exact ih hp' b ws

/-- Running the loop over a listing with no pending connection touches
nothing: no write, no error, flag and dict unchanged. -/
theorem pecLoop_no_pending (putR : String → Except CloudError Unit)
    (conns : List PrivateEndpointConnection) (hp : conns.any isPending = false) :
    ∀ (b : Bool) (d : Option AccountDict) (ws : List PrivateEndpointConnection),
      pecLoop putR conns b d ws = (ws, .ok (b, d)) := by
  induction conns with
  | nil => intro b d ws; simp [pecLoop]
  | cons x rest ih =>
    intro b d ws
    have hx : isPending x = false := by
      cases hx : isPending x with
      | true => rw [List.any_cons, hx] at hp; simp at hp
      | false => rfl
    have hp' : rest.any isPending = false := by
      simpa [List.any_cons, hx] using hp
    simp only [pecLoop, hx, Bool.false_eq_true, if_false]
    exact ih hp' b d ws

/-- A connection that went through `approveIfPending` is never pending. -/
theorem isPending_approveIfPending (c : PrivateEndpointConnection) :
    isPending (approveIfPending c) = false := by
  cases hc : isPending c with
  | true =>
    have h1 : approveIfPending c = approveConn c := by
      simp [approveIfPending, hc]
    rw [h1]
    rfl
  | false =>
    have h1 : approveIfPending c = c := by
      simp [approveIfPending, hc]
    rw [h1, hc]

/-- After a successful approving run, the listing a second run observes has no
pending connection left. -/
theorem any_isPending_map_approveIfPending (conns : List PrivateEndpointConnection) :
    (conns.map approveIfPending).any isPending = false := by
  induction conns with
  | nil => simp
  | cons x rest ih => simp [isPending_approveIfPending, ih]

/-- The comparison rule is reflexive: a configuration always matches itself. -/
theorem configMatches_self (svc : SubService) (d : ServiceConfig) :
    configMatches svc d d = true := by
  cases svc <;> simp [configMatches, loggingMatches, metricsMatches]

/-- Wildcard leniency: an observed configuration equal to the desired one in
every field except that all retention day counts are unset still matches, for
every sub-service. -/
theorem configMatches_clearDays (svc : SubService) (d : ServiceConfig) :
    configMatches svc d (clearDays d) = true := by
  cases svc <;> simp [configMatches, loggingMatches, metricsMatches, clearDays]

/-- A step whose observed configuration already matches performs no action. -/
theorem stepService_matched (p : MonitoringPolicy)
    (acc : Bool × (SubService → ServiceConfig)) (svc : SubService)
    (h : configMatches svc (desiredConfig p) (acc.2 svc) = true) :
    stepService p acc svc = acc := by
  simp [stepService, reconcileService, h]

/-- After a step, the stepped service's observed configuration matches the
desired one. -/
theorem stepService_post (p : MonitoringPolicy)
    (acc : Bool × (SubService → ServiceConfig)) (svc : SubService) :
    configMatches svc (desiredConfig p) ((stepService p acc svc).2 svc) = true := by
  cases h : configMatches svc (desiredConfig p) (acc.2 svc) with
  | true => rw [stepService_matched p acc svc h]; exact h
  | false =>
    simp [stepService, reconcileService, h, Function.update_same, configMatches_self]

/-- A step never touches the configuration of another service. -/
theorem stepService_other (p : MonitoringPolicy)
    (acc : Bool × (SubService → ServiceConfig)) (svc svc' : SubService)
    (h : svc' ≠ svc) :
    (stepService p acc svc).2 svc' = acc.2 svc' := by
  cases hm : configMatches svc (desiredConfig p) (acc.2 svc) with
  | true => rw [stepService_matched p acc svc hm]
  | false =>
    simp [stepService, reconcileService, hm, Function.update_noteq h]

/-- After the monitoring phase, every sub-service's remote configuration
matches the desired one. -/
theorem reconcileMonitoring_post (p : MonitoringPolicy)
    (cfgs : SubService → ServiceConfig) (svc : SubService) :
    configMatches svc (desiredConfig p) ((reconcileMonitoring p cfgs).2 svc) = true := by
  cases svc with
  | blob =>
    rw [reconcileMonitoring,
      stepService_other p _ SubService.table SubService.blob (by simp),
      stepService_other p _ SubService.file SubService.blob (by simp),
      stepService_other p _ SubService.queue SubService.blob (by simp)]
    exact stepService_post p _ SubService.blob
  | queue =>
    rw [reconcileMonitoring,
      stepService_other p _ SubService.table SubService.queue (by simp),
      stepService_other p _ SubService.file SubService.queue (by simp)]
    exact stepService_post p _ SubService.queue
  | file =>
    rw [reconcileMonitoring,
      stepService_other p _ SubService.table SubService.file (by simp)]
    exact stepService_post p _ SubService.file
  | table =>
    rw [reconcileMonitoring]
    exact stepService_post p _ SubService.table

/-- Running the monitoring phase a second time on the configurations the first
run left behind performs no write and reports no change. -/
theorem reconcileMonitoring_idem (p : MonitoringPolicy)
    (cfgs : SubService → ServiceConfig) :
    reconcileMonitoring p (reconcileMonitoring p cfgs).2 =
      (false, (reconcileMonitoring p cfgs).2) := by
  have hpost := reconcileMonitoring_post p cfgs
  show stepService p
      (stepService p
        (stepService p
          (stepService p (false, (reconcileMonitoring p cfgs).2) SubService.blob)
          SubService.queue)
        SubService.file)
      SubService.table = (false, (reconcileMonitoring p cfgs).2)
  rw [stepService_matched p (false, (reconcileMonitoring p cfgs).2) SubService.blob
      (hpost SubService.blob),
    stepService_matched p (false, (reconcileMonitoring p cfgs).2) SubService.queue
      (hpost SubService.queue),
    stepService_matched p (false, (reconcileMonitoring p cfgs).2) SubService.file
      (hpost SubService.file),
    stepService_matched p (false, (reconcileMonitoring p cfgs).2) SubService.table
      (hpost SubService.table)]

/-- With a succeeding write channel, the fallible monitoring step agrees with
`stepService`. -/
theorem stepServiceE_ok (setR : SubService → Except CloudError Unit)
    (p : MonitoringPolicy) (acc : Bool × (SubService → ServiceConfig))
    (svc : SubService) (h : setR svc = .ok ()) :
    stepServiceE setR p acc svc = .ok (stepService p acc svc) := by
  rcases hm : reconcileService p svc (acc.2 svc) with ⟨wrote, payload⟩
  cases wrote <;> simp [stepServiceE, stepService, hm, h]

/-- The whole monitoring phase is idempotent, whether or not
`enable_monitoring` was given. -/
theorem monitoringPart_idem (em : Option Nat) (cfgs : SubService → ServiceConfig) :
    monitoringPart em (monitoringPart em cfgs).2 =
      (false, (monitoringPart em cfgs).2) := by
  cases h : desiredPolicy em with
  | none => simp [monitoringPart, h]
  | some p => simp [monitoringPart, h, reconcileMonitoring_idem]

/-- Claim C1: with approval requested and every put succeeding, the loop writes
back exactly the connections whose status is Pending, each with status set to
Approved, appends exactly their names to the snapshot's connection list in
listing order, and reports a change exactly when some connection was Pending;
connections in any other status are neither written nor added. -/
theorem claim1_pending_only_approved (putR : String → Except CloudError Unit)
    (conns : List PrivateEndpointConnection) (ad : AccountDict)
    (hok : ∀ c ∈ conns, isPending c = true → putR c.name = .ok ()) :
    pecLoop putR conns false (some ad) [] =
      ((conns.filter isPending).map approveConn,
       .ok (conns.any isPending,
        some { ad with private_endpoint_connection :=
                 ad.private_endpoint_connection ++
                   (conns.filter isPending).map (fun c => c.name) })) := by
  have h := pecLoop_all_ok putR conns false ad hok
  simpa using h

/-- Claim C1, witness: one connection in each of the four statuses; only the
Pending one is written and recorded. -/
theorem claim1_witness :
    pecLoop wPut wMix false (some wAd) [] =
      ((wMix.filter isPending).map approveConn,
       .ok (wMix.any isPending,
        some { wAd with private_endpoint_connection :=
                 wAd.private_endpoint_connection ++
                   (wMix.filter isPending).map (fun c => c.name) })) :=
  claim1_pending_only_approved wPut wMix wAd (fun c _ _ => rfl)

/-- Claim C2: for every sub-service, the modelled per-service reconciler issues
a write (reporting a change) exactly when the observed configuration is not
equal to the desired one under the asymmetric rule; and an observed
configuration equal to the desired one except for unset retention day counts
never triggers a write, whatever the sub-service. -/
theorem claim2_drift_rule (p : MonitoringPolicy) (svc : SubService)
    (o : ServiceConfig) :
    ((reconcileService p svc o).1 = !(configMatches svc (desiredConfig p) o)) ∧
    reconcileService p svc (clearDays (desiredConfig p)) = (false, none) := by
  constructor
  · cases h : configMatches svc (desiredConfig p) o <;> simp [reconcileService, h]
  · simp [reconcileService, configMatches_clearDays]

/-- Claim C3, counterexample: the lookup reports not-found and is swallowed,
yet with approval requested and one Pending connection listed the run raises
instead of continuing normally. -/
theorem claim3_counterexample :
    (exec_module "rg1" true wPut (.error { isNotFound := true }) wConns).2 =
      .error .typeError := rfl

/-- Claim C3 (amended): a not-found lookup outcome is swallowed and mapped to
the empty snapshot, no error escapes, and the run continues normally — provided
approval is off or the listing contains no Pending connection (otherwise the
absent-snapshot edge case applies). -/
theorem claim3_amended (resource_group : String) (e : CloudError) (approve : Bool)
    (putR : String → Except CloudError Unit)
    (conns : List PrivateEndpointConnection)
    (hnf : e.isNotFound = true)
    (hcont : approve = false ∨ conns.any isPending = false) :
    get_account resource_group (.error e) = none ∧
    exec_module resource_group approve putR (.error e) conns =
      ([], .ok { changed := false, state := none }) := by
  refine ⟨rfl, ?_⟩
  rcases hcont with ha | hnp
  · subst ha
    rfl
  · have h := pecLoop_no_pending putR conns hnp false none []
    cases approve with
    | false => rfl
    | true =>
      unfold exec_module
      simp [get_account, h]

/-- Claim C3, witness: a not-found lookup with approval off and a Pending
connection listed yields the empty snapshot and a normal result. -/
theorem claim3_witness :
    get_account "rg1" (.error { isNotFound := true }) = none ∧
    exec_module "rg1" false wPut (.error { isNotFound := true }) wConns =
      ([], .ok { changed := false, state := none }) :=
  claim3_amended "rg1" { isNotFound := true } false wPut wConns rfl (Or.inl rfl)

/-- Claim C4, counterexample: a CloudError from the lookup that is not a
not-found is also recovered locally — the run returns a normal result with an
empty snapshot instead of propagating it and aborting. -/
theorem claim4_counterexample :
    get_account "rg1" (.error { isNotFound := false }) = none ∧
    exec_module "rg1" false wPut (.error { isNotFound := false }) [] =
      ([], .ok { changed := false, state := none }) :=
  ⟨rfl, rfl⟩

/-- Claim C4 (amended): the lookup's catch clause recovers every CloudError it
raises, not-found or not, mapping it to an empty snapshot; every other failure
from the cloud client is not recovered and propagates, aborting the rest of
the run — a CloudError from a sub-service config write when drift made the
reconciler issue one, and a CloudError from a connection-approval write. -/
theorem claim4_amended (resource_group : String) (e econf efail : CloudError)
    (putR : String → Except CloudError Unit)
    (setR : SubService → Except CloudError Unit)
    (p : MonitoringPolicy) (svc : SubService)
    (acc : Bool × (SubService → ServiceConfig))
    (pre post : List PrivateEndpointConnection) (c : PrivateEndpointConnection)
    (ad : AccountDict) (b : Bool)
    (hdrift : configMatches svc (desiredConfig p) (acc.2 svc) = false)
    (hconf : setR svc = .error econf)
    (hok : ∀ x ∈ pre, isPending x = true → putR x.name = .ok ())
    (hc : isPending c = true) (hfail : putR c.name = .error efail) :
    get_account resource_group (.error e) = none ∧
    stepServiceE setR p acc svc = .error econf ∧
    (pecLoop putR (pre ++ c :: post) b (some ad) []).2 =
      .error (.cloud efail) := by
  refine ⟨rfl, ?_, ?_⟩
  · simp [stepServiceE, reconcileService, hdrift, hconf]
  · rw [pecLoop_ok_front putR pre (c :: post) hok b ad []]
    simp [pecLoop, hc, hfail]

/-- Claim C4, witness: any lookup CloudError is recovered, a failing config
write on a drifted blob service aborts with its error, and a failing approval
put aborts the run with its error. -/
theorem claim4_witness :
    get_account "rg1" (.error { isNotFound := false }) = none ∧
    stepServiceE wSetFail wPol (false, wCfgs) SubService.blob =
      .error { isNotFound := false } ∧
    (pecLoop wPutFail
        ([({ name := "c0", status := "Pending" } : PrivateEndpointConnection)] ++
          { name := "c1", status := "Pending" } ::
            [({ name := "c2", status := "Pending" } : PrivateEndpointConnection)])
        false (some wAd) []).2 =
      .error (.cloud { isNotFound := false }) :=
  claim4_amended "rg1" { isNotFound := false } { isNotFound := false }
    { isNotFound := false } wPutFail wSetFail wPol SubService.blob (false, wCfgs)
    [{ name := "c0", status := "Pending" }] [{ name := "c2", status := "Pending" }]
    { name := "c1", status := "Pending" } wAd false rfl rfl
    (by intro x hx hp; simp at hx; subst hx; rfl) rfl rfl

/-- Claim C6: the optional enable-monitoring integer maps 0 to a disabled
policy with zero retention days, a positive N to an enabled policy with N
retention days, and when absent the monitoring phase performs no action at
all. -/
theorem claim6_enable_monitoring (n : Nat) (hn : 0 < n)
    (cfgs : SubService → ServiceConfig) :
    desiredPolicy none = none ∧
    desiredPolicy (some 0) = some { enabled := false, retentionDays := 0 } ∧
    desiredPolicy (some n) = some { enabled := true, retentionDays := n } ∧
    monitoringPart none cfgs = (false, cfgs) := by
  refine ⟨rfl, rfl, ?_, rfl⟩
  cases n with
  | zero => exact absurd hn (by simp)
  | succ m => rfl

/-- Claim C6, witness: evaluation at 7. -/
theorem claim6_witness :
    desiredPolicy none = none ∧
    desiredPolicy (some 0) = some { enabled := false, retentionDays := 0 } ∧
    desiredPolicy (some 7) = some { enabled := true, retentionDays := 7 } ∧
    monitoringPart none wCfgs = (false, wCfgs) :=
  claim6_enable_monitoring 7 (by decide) wCfgs

/-- Claim C7: when an approval put fails after earlier approvals in the same
run succeeded, the earlier writes stand (they are exactly the writes the loop
issued), no connection after the failing one is processed, and the run aborts
with the triggering error. -/
theorem claim7_no_rollback (putR : String → Except CloudError Unit)
    (pre post : List PrivateEndpointConnection) (c : PrivateEndpointConnection)
    (ad : AccountDict) (b : Bool) (efail : CloudError)
    (hok : ∀ x ∈ pre, isPending x = true → putR x.name = .ok ())
    (hc : isPending c = true) (hfail : putR c.name = .error efail) :
    pecLoop putR (pre ++ c :: post) b (some ad) [] =
      ((pre.filter isPending).map approveConn, .error (.cloud efail)) := by
  rw [pecLoop_ok_front putR pre (c :: post) hok b ad []]
  simp [pecLoop, hc, hfail]

/-- Claim C7, witness: the put for connection c1 fails; the earlier approval of
c0 is retained as an issued write, c2 is never processed, and the run aborts
with the put's error. -/
theorem claim7_witness :
    pecLoop wPutFail
        ([({ name := "c0", status := "Pending" } : PrivateEndpointConnection)] ++
          { name := "c1", status := "Pending" } ::
            [({ name := "c2", status := "Pending" } : PrivateEndpointConnection)])
        true (some wAd) [] =
      (([({ name := "c0", status := "Pending" } : PrivateEndpointConnection)].filter
          isPending).map approveConn,
       .error (.cloud { isNotFound := false })) :=
  claim7_no_rollback wPutFail
    [{ name := "c0", status := "Pending" }] [{ name := "c2", status := "Pending" }]
    { name := "c1", status := "Pending" } wAd true { isNotFound := false }
    (by intro x hx hp; simp at hx; subst hx; rfl) rfl rfl

/-- Claim C8, counterexample: a supplied empty-string location is not used
unchanged — Python truthiness makes the code fall back to the resource group's
location. -/
theorem claim8_counterexample :
    effectiveLocation (some "") "westus" = "westus" ∧ "westus" ≠ "" :=
  ⟨rfl, by decide⟩

/-- Claim C8 (amended): an absent or empty location falls back to the resource
group's location; a supplied non-empty location is used unchanged. -/
theorem claim8_amended (rgLocation s : String) (hs : s ≠ "") :
    effectiveLocation none rgLocation = rgLocation ∧
    effectiveLocation (some "") rgLocation = rgLocation ∧
    effectiveLocation (some s) rgLocation = s := by
  refine ⟨rfl, rfl, ?_⟩
  simp [effectiveLocation, hs]

/-- Claim C8, witness: evaluation at concrete locations. -/
theorem claim8_witness :
    effectiveLocation none "westus" = "westus" ∧
    effectiveLocation (some "") "westus" = "westus" ∧
    effectiveLocation (some "eastus2") "westus" = "eastus2" :=
  claim8_amended "westus" "eastus2" (by decide)

/-- Claim C9: when the lookup found no account (empty snapshot), approval is
requested and the listing contains a Pending connection, the run aborts with
the TypeError raised on appending the name to the absent snapshot, instead of
returning a result. -/
theorem claim9_absent_account_error (resource_group : String) (e : CloudError)
    (putR : String → Except CloudError Unit)
    (conns : List PrivateEndpointConnection)
    (hp : conns.any isPending = true) :
    (exec_module resource_group true putR (.error e) conns).2 =
      .error .typeError := by
  have h := pecLoop_none_pending putR conns hp false []
  unfold exec_module
  simp [get_account, h]

/-- Claim C9, witness: a not-found account with one Pending connection. -/
theorem claim9_witness :
    (exec_module "rg1" true wPut (.error { isNotFound := true }) wConns).2 =
      .error RunError.typeError :=
  claim9_absent_account_error "rg1" { isNotFound := true } wPut wConns rfl

/-- Claim C10: the snapshot's connection list starts empty on every run
(`account_obj_to_dict` creates it fresh), and after a successful approving run
it contains exactly the names of the connections newly approved, in the order
the listing returned them. -/
theorem claim10_connection_list (resource_group : String) (obj : AccountObj)
    (putR : String → Except CloudError Unit)
    (conns : List PrivateEndpointConnection)
    (hok : ∀ c ∈ conns, isPending c = true → putR c.name = .ok ()) :
    (account_obj_to_dict resource_group obj).private_endpoint_connection = [] ∧
    (exec_module resource_group true putR (.ok obj) conns).2 =
      .ok { changed := conns.any isPending,
            state := some { account_obj_to_dict resource_group obj with
                            private_endpoint_connection :=
                              (conns.filter isPending).map (fun c => c.name) } } := by
  refine ⟨rfl, ?_⟩
  have h := pecLoop_all_ok putR conns false (account_obj_to_dict resource_group obj) hok
  simp only [account_obj_to_dict, Bool.false_or, List.nil_append] at h
  unfold exec_module
  simp [get_account, h, account_obj_to_dict]

/-- Claim C10, witness: the mixed listing yields exactly the Pending
connection's name. -/
theorem claim10_witness :
    (account_obj_to_dict "rg1" wObj).private_endpoint_connection = [] ∧
    (exec_module "rg1" true wPut (.ok wObj) wMix).2 =
      .ok { changed := wMix.any isPending,
            state := some { account_obj_to_dict "rg1" wObj with
                            private_endpoint_connection :=
                              (wMix.filter isPending).map (fun c => c.name) } } :=
  claim10_connection_list "rg1" wObj wPut wMix (fun c _ _ => rfl)

/-- Claim C5: running reconcile a second time immediately after a successful
first run, with identical desired monitoring and approval inputs and no
external change to the remote state between the calls (the second run observes
the configurations as written and the connections as approved), reports
`changed = false`. -/
theorem claim5_idempotent (em : Option Nat) (approve : Bool)
    (resource_group : String) (putR : String → Except CloudError Unit)
    (lookup : Except CloudError AccountObj)
    (cfgs : SubService → ServiceConfig) (conns : List PrivateEndpointConnection)
    (out : ModuleResults × (SubService → ServiceConfig) ×
      List PrivateEndpointConnection)
    (h : reconcile em approve resource_group putR lookup cfgs conns = .ok out) :
    Except.map (fun r => r.1.changed)
      (reconcile em approve resource_group putR lookup out.2.1 out.2.2) =
      .ok false := by
  cases approve with
  | false =>
    simp only [reconcile, Bool.false_eq_true, if_false, Except.ok.injEq] at h
    subst h
    simp [reconcile, Except.map, monitoringPart_idem]
  | true =>
    simp only [reconcile, if_true] at h
    rcases hp : pecLoop putR conns (monitoringPart em cfgs).1
        (get_account resource_group lookup) [] with ⟨ws, res⟩
    rw [hp] at h
    cases res with
    | error e => simp at h
    | ok cd =>
      rcases cd with ⟨changed, d⟩
      simp only [Except.ok.injEq] at h
      subst h
      have h2 := pecLoop_no_pending putR (conns.map approveIfPending)
        (any_isPending_map_approveIfPending conns) false
        (get_account resource_group lookup) []
      simp [reconcile, Except.map, monitoringPart_idem, h2]

/-- Claim C5, witness: a second run after approving the single pending
connection reports no change. -/
theorem claim5_witness :
    Except.map (fun r => r.1.changed)
      (reconcile none true "rg1" wPut (.ok wObj) wOut.2.1 wOut.2.2) =
      .ok false :=
  claim5_idempotent none true "rg1" wPut (.ok wObj) wCfgs wConns wOut rfl
